import Mathlib

/-!
Verification of the roadmap progression engine of the PathForge backend
(`backend/api/routes/roadmaps.py` and `backend/services/ai_service.py`).

The Python routes are embedded as pure Lean functions: the MongoDB document
for a roadmap becomes the `Roadmap` structure, the result of the initial
`find_one` lookup becomes an `Option Roadmap` argument, timestamps
(`datetime.utcnow()`) become a `Nat` argument `now`, and each route returns
`Except HttpError (newly stored document × HTTP response body)`.  Python
floats are modelled by exact rationals (`ℚ`), `round(x, n)` by round-half-even
on rationals, and `int(x)` by truncation toward zero.  The external OpenAI
chat call made by `AIService.generate_module_summary` is passed in as an
oracle `String → Except String String` (per module id: either the returned
text or the raised exception).
-/

namespace PathForge

/-- Embedding of `ResourceStatus` from `backend/models/roadmap.py`. -/
inductive ResourceStatus where
  | locked
  | unlocked
  | inProgress
  | completed
  | skipped
deriving DecidableEq, Repr

/-- One entry of a resource's `ratings` list (dict built in `rate_resource`,
mirroring `ResourceRating` in `backend/models/resource.py`). -/
structure RatingEntry where
  user_id : String
  rating : ℚ
  comment : Option String
  created_at : Nat
deriving DecidableEq, Repr

/-- Embedding of `LearningResource` from `backend/models/roadmap.py`, together with the
rating fields that `rate_resource` adds dynamically to the stored dict. -/
structure LearningResource where
  id : String
  title : String
  url : String
  description : String
  resource_type : String
  estimated_hours : ℚ
  status : ResourceStatus
  order : Nat
  time_spent_seconds : Int
  opened_at : Option Nat
  completed_at : Option Nat
  skipped_at : Option Nat
  ratings : List RatingEntry
  rating : Option ℚ
  rating_count : Nat
deriving DecidableEq, Repr

/-- Embedding of `Module` from `backend/models/roadmap.py`, with the summary fields that
`complete_resource` / `skip_resource` add dynamically. -/
structure Module where
  id : String
  title : String
  description : String
  skills_covered : List String
  resources : List LearningResource
  estimated_total_hours : ℚ
  week_number : Int
  order : Nat
  is_completed : Bool
  completion_summary : Option String
  summary_generated_at : Option Nat
deriving DecidableEq, Repr

/-- The progression-relevant part of the stored `Roadmap` document
(`backend/models/roadmap.py`). -/
structure Roadmap where
  modules : List Module
  progress_percentage : ℚ
  current_module_index : Nat
deriving DecidableEq, Repr

/-- A raised `HTTPException`: status code and detail, as finally seen by the
caller of the route. -/
structure HttpError where
  status : Nat
  detail : String
deriving DecidableEq, Repr

/-- Decidable equality of route results, so that concrete runs can be
checked by evaluation. -/
instance exceptDecEq [DecidableEq ε] [DecidableEq α] : DecidableEq (Except ε α) := fun a b =>
  match a, b with
  | .ok x, .ok y =>
    match decEq x y with
    | isTrue h => isTrue (by rw [h])
    | isFalse h => isFalse (by intro hc; cases hc; exact h rfl)
  | .error x, .error y =>
    match decEq x y with
    | isTrue h => isTrue (by rw [h])
    | isFalse h => isFalse (by intro hc; cases hc; exact h rfl)
  | .ok _, .error _ => isFalse (by intro hc; cases hc)
  | .error _, .ok _ => isFalse (by intro hc; cases hc)

/-- Python `int(x)` (truncation toward zero) on an exact rational.
(`Rat.floor` is used instead of `⌊·⌋` so that terms evaluate by kernel
reduction; the two agree, see `ratFloor_eq_floor`.) -/
def pyInt (q : ℚ) : Int :=
  if q < 0 then -(Rat.floor (-q)) else Rat.floor q

/-- Python `round` to an integer: round half to even, on an exact rational. -/
def roundHalfEvenInt (q : ℚ) : Int :=
  if q - Rat.floor q < 1/2 then Rat.floor q
  else if 1/2 < q - Rat.floor q then Rat.floor q + 1
  else if Rat.floor q % 2 = 0 then Rat.floor q else Rat.floor q + 1

/-- Python `round(q, 1)` on an exact rational. -/
def pyRound1 (q : ℚ) : ℚ := (roundHalfEvenInt (q * 10) : ℚ) / 10

/-- Python `round(q, 2)` on an exact rational. -/
def pyRound2 (q : ℚ) : ℚ := (roundHalfEvenInt (q * 100) : ℚ) / 100

/-- In-place update of the element at a given list index, as Python index
assignment `xs[i] = f(xs[i])` (out-of-range index untouched here; call sites
that can actually go out of range model the `IndexError` explicitly). -/
def listModify (f : α → α) (i : Nat) (l : List α) : List α :=
  match l with
  | [] => []
  | a :: as =>
    match i with
    | 0 => f a :: as
    | n + 1 => a :: listModify f n as
termination_by structural l

/-- Embedding of `resource["status"] in ["completed", "skipped"]` — the "done" test used
by `recalculate_progress` (`roadmaps.py` line 509). -/
def resourceDone (r : LearningResource) : Bool :=
  r.status = .completed || r.status = .skipped

/-! ## Roadmap generation (`generate_roadmap`, `roadmaps.py` lines 95-156) -/

/-- One resource description coming from the AI builder output. -/
structure ResourceData where
  title : String
  url : String
  description : String
  estimated_hours : ℚ
  resource_type : String
deriving DecidableEq, Repr

/-- One module description coming from the AI builder output. -/
structure ModuleData where
  title : String
  description : String
  skills_covered : List String
  estimated_hours : Option ℚ
  resources : List ResourceData
deriving DecidableEq, Repr

/-- Embedding of `weeks_per_module = total_weeks / total_modules if total_modules > 0 else 1`
(`roadmaps.py` line 101). -/
def weeksPerModule (total_weeks : ℚ) (total_modules : Nat) : ℚ :=
  if 0 < total_modules then total_weeks / total_modules else 1

/-- Embedding of `current_week = int(idx * weeks_per_module) + 1` (`roadmaps.py` line 111). -/
def moduleWeek (wpm : ℚ) (idx : Nat) : Int :=
  pyInt ((idx : ℚ) * wpm) + 1

/-- Embedding of `is_week_start = (idx == 0 or current_week != previous_week)`
(`roadmaps.py` lines 111-117). -/
def isWeekStart (wpm : ℚ) (idx : Nat) : Bool :=
  idx = 0 || moduleWeek wpm idx ≠ moduleWeek wpm (idx - 1)

/-- Construction of one `LearningResource` at generation time
(`roadmaps.py` lines 118-129): status `UNLOCKED` only for the first resource
of a week-start module, everything else `LOCKED`, `time_spent_seconds = 0`. -/
def mkGenResource (freshId : String) (weekStart : Bool) (ridx : Nat)
    (rd : ResourceData) : LearningResource :=
  { id := freshId
    title := rd.title
    url := rd.url
    description := rd.description
    resource_type := rd.resource_type
    estimated_hours := rd.estimated_hours
    status := if weekStart && ridx = 0 then .unlocked else .locked
    order := ridx
    time_spent_seconds := 0
    opened_at := none
    completed_at := none
    skipped_at := none
    ratings := []
    rating := none
    rating_count := 0 }

/-- Construction of one `Module` at generation time (`roadmaps.py`
lines 102-143).  `midGen` / `ridGen` stand for the `uuid.uuid4()` calls. -/
def mkGenModule (wpm : ℚ) (midGen : Nat → String) (ridGen : Nat → Nat → String)
    (idx : Nat) (md : ModuleData) : Module :=
  let module_hours : ℚ :=
    match md.estimated_hours with
    | some h => h
    | none => (md.resources.map (fun r => r.estimated_hours)).sum
  let weekStart := isWeekStart wpm idx
  { id := midGen idx
    title := md.title
    description := md.description
    skills_covered := md.skills_covered
    resources := (md.resources.enum).map (fun p => mkGenResource (ridGen idx p.1) weekStart p.1 p.2)
    estimated_total_hours := module_hours
    week_number := moduleWeek wpm idx
    order := idx
    is_completed := false
    completion_summary := none
    summary_generated_at := none }

/-- The module list built by `generate_roadmap` (`roadmaps.py` lines 96-143). -/
def buildModules (total_weeks : ℚ) (mds : List ModuleData)
    (midGen : Nat → String) (ridGen : Nat → Nat → String) : List Module :=
  let wpm := weeksPerModule total_weeks mds.length
  (mds.enum).map (fun p => mkGenModule wpm midGen ridGen p.1 p.2)

/-- The freshly stored roadmap (`roadmaps.py` lines 147-156):
`progress_percentage = 0`, `current_module_index = 0`. -/
def generate_roadmap (total_weeks : ℚ) (mds : List ModuleData)
    (midGen : Nat → String) (ridGen : Nat → Nat → String) : Roadmap :=
  { modules := buildModules total_weeks mds midGen ridGen
    progress_percentage := 0
    current_module_index := 0 }

/-! ## Progress recalculation (`recalculate_progress`, `roadmaps.py`
lines 494-545).

The Python function computes the counts, mutates `is_completed` flags,
unlocks the next module's first resource after a fully done module, and sets
`current_module_index` — and then executes `return completed_module_ids`
(line 534) BEFORE the `collection.update_one` call that would have persisted
`progress_percentage`: that `update_one` (lines 535-545) is unreachable dead
code, and the roadmap dict's own `progress_percentage` key is never written.
The embedding therefore returns the mutated roadmap (with its
`progress_percentage` field untouched) and the list of newly completed
module ids, exactly as the reachable part of the source does. -/

/-- Unlock the first resource of a module if it is currently `LOCKED`
(`roadmaps.py` lines 519-523). -/
def unlockFirstIfLocked (m : Module) : Module :=
  match m.resources with
  | [] => m
  | r :: rs =>
    if r.status = .locked then { m with resources := { r with status := .unlocked } :: rs }
    else m

/-- The module loop of `recalculate_progress` (`roadmaps.py` lines 501-525).
`unlockHead` records whether the previous module just unlocked this one's
first resource.  Returns (updated modules, total resources, done resources,
newly completed module ids). -/
def recalcModules (unlockHead : Bool) : List Module → List Module × Nat × Nat × List String
  | [] => ([], 0, 0, [])
  | m :: rest =>
    let m0 := if unlockHead then unlockFirstIfLocked m else m
    let module_total := m0.resources.length
    let module_completed := (m0.resources.filter resourceDone).length
    let was_completed := m0.is_completed
    if 0 < module_total ∧ module_completed = module_total then
      let m1 := { m0 with is_completed := true }
      let newIds := if was_completed then [] else [m0.id]
      let (rest1, tot, done, ids) := recalcModules true rest
      (m1 :: rest1, module_total + tot, module_completed + done, newIds ++ ids)
    else
      let m1 := { m0 with is_completed := false }
      let (rest1, tot, done, ids) := recalcModules false rest
      (m1 :: rest1, module_total + tot, module_completed + done, ids)

/-- Embedding of `module.get("is_completed") or module["resources"][0]["status"] in
["unlocked", "in_progress", "completed", "skipped"]` (`roadmaps.py`
line 530). -/
def moduleAccessible (m : Module) : Bool :=
  m.is_completed ||
    (match m.resources with
     | [] => false
     | r :: _ =>
       r.status = .unlocked || r.status = .inProgress ||
       r.status = .completed || r.status = .skipped)

/-- Embedding of `highest_accessible` loop (`roadmaps.py` lines 528-531): last index of an
accessible module, 0 if none. -/
def highestAccessible (ms : List Module) : Nat :=
  (ms.enum).foldl (fun acc p => if moduleAccessible p.2 then p.1 else acc) 0

/-- Embedding of `recalculate_progress` (`roadmaps.py` lines 494-534): the part of the
function that actually runs.  The computed `progress` value and the
`update_one` after `return` (lines 533, 535-545) are dead for the value and
for the database respectively, so the stored `progress_percentage` field is
left untouched. -/
def recalculate_progress (r : Roadmap) : Roadmap × List String :=
  let (ms1, _total, _done, ids) := recalcModules false r.modules
  ({ r with modules := ms1, current_module_index := highestAccessible ms1 }, ids)

/-- Modelled from the spec: the progress-percentage invariant of §3 / §4.3 —
`100 * (COMPLETED or SKIPPED resources) / (total resources)`, rounded to two
decimal places, and 0 when there are no resources.  Used only to compare the
stored field against what the spec requires. -/
def specProgressPercentage (r : Roadmap) : ℚ :=
  let total := (r.modules.map (fun m => m.resources.length)).sum
  let done := (r.modules.map (fun m => (m.resources.filter resourceDone).length)).sum
  if total = 0 then 0 else pyRound2 (100 * done / total)

/-! ## Module summaries (`AIService.generate_module_summary`,
`ai_service.py` lines 280-308, and the summary loops of
`complete_resource` / `skip_resource`, `roadmaps.py` lines 332-358 and
400-426). -/

/-- Embedding of `AIService.generate_module_summary`: the OpenAI chat call is passed in as
its outcome (`Except`); on any exception the Python function returns the
fixed fallback string (`ai_service.py` lines 298-308). -/
def generate_module_summary (call : Except String String) : String :=
  match call with
  | .ok s => s
  | .error _ =>
    "Great job completing this module! Keep up the excellent work on your learning journey."

/-- One entry of the `module_summaries` list returned by
`complete_resource` / `skip_resource`. -/
structure SummaryItem where
  module_id : String
  module_title : String
  summary : String
deriving DecidableEq, Repr

/-- Database-level and external-call events emitted by a route, in program
order: used to state in which order progression state is persisted relative
to summary generation. -/
inductive DbEvent where
  | summaryCall (module_id : String)
  | persistRoadmap
deriving DecidableEq, Repr

def isSummaryEvent : DbEvent → Bool
  | .summaryCall _ => true
  | .persistRoadmap => false

def isPersistEvent : DbEvent → Bool
  | .summaryCall _ => false
  | .persistRoadmap => true

/-- Inner loop of the summary block (`roadmaps.py` lines 336-358): for one
newly completed module id, walk all modules, and on every id match call the
summary generator, store the summary on the module, and append a response
entry. -/
def applySummary (oracle : String → Except String String) (now : Nat) (cid : String) :
    List Module → List Module × List SummaryItem × List DbEvent
  | [] => ([], [], [])
  | m :: rest =>
    if m.id = cid then
      let s := generate_module_summary (oracle cid)
      let m1 := { m with completion_summary := some s, summary_generated_at := some now }
      let (rest1, items, evs) := applySummary oracle now cid rest
      (m1 :: rest1, ⟨m.id, m.title, s⟩ :: items, .summaryCall cid :: evs)
    else
      let (rest1, items, evs) := applySummary oracle now cid rest
      (m :: rest1, items, evs)

/-- Outer loop of the summary block (`roadmaps.py` lines 334-358): iterate
the newly completed module ids over the (already mutated) module list,
accumulating response entries and events in program order. -/
def summariesFor (oracle : String → Except String String) (now : Nat) :
    List String → List Module → List Module × List SummaryItem × List DbEvent
  | [], ms => (ms, [], [])
  | cid :: ids, ms =>
    let (ms1, items, evs) := applySummary oracle now cid ms
    let (ms2, items2, evs2) := summariesFor oracle now ids ms1
    (ms2, items ++ items2, evs ++ evs2)

/-! ## Complete / skip resource (`complete_resource`, `roadmaps.py`
lines 303-370; `skip_resource`, lines 371-436). -/

/-- The loop of `complete_resource` / `skip_resource` over one module's
resources: find the resource by id, apply the per-resource update `f`, and
report the updated list together with the found resource's `order` field. -/
def markScan (f : LearningResource → LearningResource) (rid : String) :
    List LearningResource → Option (List LearningResource × Nat)
  | [] => none
  | r :: rs =>
    if r.id = rid then some (f r :: rs, r.order)
    else
      match markScan f rid rs with
      | none => none
      | some (rs1, k) => some (r :: rs1, k)

/-- Embedding of `next_idx = resource["order"] + 1; if next_idx < len(resources):
resources[next_idx]["status"] = "unlocked"` — the unconditional unlock of
the next resource (`roadmaps.py` lines 321-323 and 389-391). -/
def unlockNext (rs : List LearningResource) (k : Nat) : List LearningResource :=
  if k + 1 < rs.length then listModify (fun x => { x with status := .unlocked }) (k + 1) rs
  else rs

/-- Per-resource update of `complete_resource` (`roadmaps.py` lines 318-319). -/
def completeUpd (now : Nat) (r : LearningResource) : LearningResource :=
  { r with status := .completed, completed_at := some now }

/-- Per-resource update of `skip_resource` (`roadmaps.py` lines 386-387). -/
def skipUpd (now : Nat) (r : LearningResource) : LearningResource :=
  { r with status := .skipped, skipped_at := some now }

/-- One module's part of the complete/skip update: mark the matching
resource and unconditionally unlock the next one by order index. -/
def markInModule (f : LearningResource → LearningResource) (rid : String) (m : Module) :
    Module × Bool :=
  match markScan f rid m.resources with
  | none => (m, false)
  | some (rs1, k) => ({ m with resources := unlockNext rs1 k }, true)

/-- The module loop of `complete_resource` / `skip_resource`
(`roadmaps.py` lines 313-327 / 381-395): only modules with the given id are
searched, and the outer loop breaks once a resource was updated. -/
def markInModules (f : LearningResource → LearningResource) (mid rid : String) :
    List Module → List Module × Bool
  | [] => ([], false)
  | m :: ms =>
    if m.id = mid then
      let (m1, found) := markInModule f rid m
      if found then (m1 :: ms, true)
      else
        let (ms1, found2) := markInModules f mid rid ms
        (m1 :: ms1, found2)
    else
      let (ms1, found2) := markInModules f mid rid ms
      (m :: ms1, found2)

/-- Response body of `complete_resource` / `skip_resource`. -/
structure CompleteResponse where
  message : String
  module_summaries : List SummaryItem
deriving DecidableEq, Repr

/-- Shared body of `complete_resource` and `skip_resource` before their
differing exception handlers: mark the resource, recalculate progress,
generate summaries for newly completed modules, then save the whole roadmap
document (`update_one` with the full dict, `roadmaps.py` lines 359-362 /
427-430).  The event list records the order of summary calls and of the
single persist. -/
def finishResource (f : LearningResource → LearningResource) (msg : String)
    (oracle : String → Except String String) (now : Nat)
    (db : Option Roadmap) (mid rid : String) :
    Except HttpError (Roadmap × CompleteResponse × List DbEvent) :=
  match db with
  | none => .error ⟨404, "Roadmap not found"⟩
  | some r =>
    let (ms1, updated) := markInModules f mid rid r.modules
    if updated then
      let (r2, newIds) := recalculate_progress { r with modules := ms1 }
      let (ms3, items, evs) := summariesFor oracle now newIds r2.modules
      let final := { r2 with modules := ms3 }
      .ok (final, ⟨msg, items⟩, evs ++ [.persistRoadmap])
    else .error ⟨404, "Resource not found"⟩

/-- Embedding of `complete_resource` (`roadmaps.py` lines 303-370).  Its
`except HTTPException: raise` clause (lines 367-368) lets the internal 404s
reach the caller unchanged. -/
def complete_resource (now : Nat) (oracle : String → Except String String)
    (db : Option Roadmap) (mid rid : String) :
    Except HttpError (Roadmap × CompleteResponse × List DbEvent) :=
  finishResource (completeUpd now) "Resource marked as completed" oracle now db mid rid

/-- Embedding of `except Exception as e: raise HTTPException(status_code=500, detail=str(e))`:
the blanket handler used by `skip_resource`, `open_resource`,
`update_time_spent` and `rate_resource`, which also catches the routes' own
`HTTPException`s (Python `str` of an HTTPException is `"status: detail"`). -/
def wrap500 (e : HttpError) : HttpError :=
  ⟨500, toString e.status ++ ": " ++ e.detail⟩

/-- Embedding of `skip_resource` (`roadmaps.py` lines 371-436).  Unlike
`complete_resource` it has only the blanket `except Exception` handler
(lines 435-436), so its internal 404s are re-raised as HTTP 500. -/
def skip_resource (now : Nat) (oracle : String → Except String String)
    (db : Option Roadmap) (mid rid : String) :
    Except HttpError (Roadmap × CompleteResponse × List DbEvent) :=
  match finishResource (skipUpd now) "Resource skipped" oracle now db mid rid with
  | .error e => .error (wrap500 e)
  | .ok x => .ok x

/-! ## Open resource (`open_resource`, `roadmaps.py` lines 546-584). -/

/-- Response body of `open_resource` (`roadmaps.py` line 582): note the
`status` field is the string literal `"in_progress"` regardless of the
resource's stored status, and `opened_at` is the loop variable
`opened_time`, which is only assigned when the resource already had an
`opened_at`. -/
structure OpenResponse where
  message : String
  opened_at : Option Nat
  status : String
deriving DecidableEq, Repr

/-- Per-resource update of `open_resource` (`roadmaps.py` lines 567-573):
`UNLOCKED`/`IN_PROGRESS` becomes `IN_PROGRESS`, any other status is left
alone; `opened_at` is recorded only when absent. -/
def openUpdate (now : Nat) (r : LearningResource) : LearningResource :=
  let r1 :=
    if r.status = .unlocked || r.status = .inProgress then { r with status := .inProgress }
    else r
  if r1.opened_at = none then { r1 with opened_at := some now } else r1

/-- The resource loop of `open_resource` within one module: first id match
is updated (inner `break`); the reported `opened_time` is only reassigned
when the matched resource already had an `opened_at`. -/
def openScan (now : Nat) (rid : String) (acc : Option Nat) :
    List LearningResource → List LearningResource × Bool × Option Nat
  | [] => ([], false, acc)
  | r :: rs =>
    if r.id = rid then
      (openUpdate now r :: rs, true,
        match r.opened_at with
        | none => acc
        | some t => some t)
    else
      let (rs1, found, acc1) := openScan now rid acc rs
      (r :: rs1, found, acc1)

/-- The module loop of `open_resource` (`roadmaps.py` lines 562-575): no
outer `break`, so every module with the given id is visited. -/
def openModules (now : Nat) (mid rid : String) (acc : Option Nat) :
    List Module → List Module × Bool × Option Nat
  | [] => ([], false, acc)
  | m :: ms =>
    if m.id = mid then
      let (rs1, found, acc1) := openScan now rid acc m.resources
      let (ms1, found2, acc2) := openModules now mid rid acc1 ms
      ({ m with resources := rs1 } :: ms1, found || found2, acc2)
    else
      let (ms1, found2, acc1) := openModules now mid rid acc ms
      (m :: ms1, found2, acc1)

/-- Embedding of `open_resource` (`roadmaps.py` lines 546-584).  When the roadmap lookup
fails the route evaluates `f"Roadmap not found for user {user_id}"` with
`user_id` undefined (line 557), so a `NameError` — not the 404 — reaches the
blanket handler; the resource-not-found 404 (line 577) is also converted to
HTTP 500 by that handler.  On success only the module list is persisted
(`$set` of `modules`, lines 578-581). -/
def open_resource (now : Nat) (db : Option Roadmap) (mid rid : String) :
    Except HttpError (Roadmap × OpenResponse) :=
  match db with
  | none => .error ⟨500, "NameError: name user_id is not defined"⟩
  | some r =>
    let (ms1, found, openedTime) := openModules now mid rid none r.modules
    if found then
      .ok ({ r with modules := ms1 }, ⟨"Resource opened", openedTime, "in_progress"⟩)
    else .error (wrap500 ⟨404, "Resource not found"⟩)

/-! ## Update time spent (`update_time_spent`, `roadmaps.py` lines 585-648). -/

/-- Response body of `update_time_spent` (`roadmaps.py` lines 640-646). -/
structure TimeResponse where
  message : String
  auto_completed : Bool
  time_spent_seconds : Int
  estimated_seconds : ℚ
  completion_percentage : ℚ
deriving DecidableEq, Repr

/-- The auto-complete test of `update_time_spent` (`roadmaps.py`
lines 608-611): `threshold = estimated_hours * 3600 * 0.9;
time_spent_seconds >= threshold and resource["status"] != "completed"`. -/
def autoCompleteCond (estimated_hours : ℚ) (status : ResourceStatus) (t : Int) : Bool :=
  decide ((estimated_hours * 3600 * (9/10) : ℚ) ≤ (t : ℚ)) &&
    decide (status ≠ ResourceStatus.completed)

/-- The resource loop of `update_time_spent` within one module
(`roadmaps.py` lines 604-627): the time is always overwritten on an id
match, but `updated = True` and the `break` only happen inside the
auto-complete branch; a match that does not auto-complete lets the loop run
on.  Returns the updated list and, when auto-completion fired,
`(estimated_hours, order)` of the fired resource. -/
def timeScan (now : Nat) (t : Int) (rid : String) :
    List LearningResource → List LearningResource × Option (ℚ × Nat)
  | [] => ([], none)
  | r :: rs =>
    if r.id = rid then
      let r1 := { r with time_spent_seconds := t }
      if autoCompleteCond r1.estimated_hours r1.status t then
        ({ r1 with status := .completed, completed_at := some now } :: rs,
          some (r1.estimated_hours, r1.order))
      else
        let (rs1, fired) := timeScan now t rid rs
        (r1 :: rs1, fired)
    else
      let (rs1, fired) := timeScan now t rid rs
      (r :: rs1, fired)

/-- One module's part of `update_time_spent` (`roadmaps.py` lines 615-625):
after auto-completion, unlock the next resource by order index, or — when it
was the last one — mark the module completed and signal that the next
module's first resource must be unlocked.  The returned `Bool` is that
signal. -/
def timeInModule (now : Nat) (t : Int) (rid : String) (m : Module) :
    Module × Option (ℚ × Bool) :=
  match timeScan now t rid m.resources with
  | (rs1, none) => ({ m with resources := rs1 }, none)
  | (rs1, some (est, k)) =>
    if k + 1 < rs1.length then
      ({ m with resources := listModify (fun x => { x with status := .unlocked }) (k + 1) rs1 },
        some (est, false))
    else
      ({ m with resources := rs1, is_completed := true }, some (est, true))

/-- The module loop of `update_time_spent` (`roadmaps.py` lines 602-629):
modules with the given id are visited until one fires auto-completion. -/
def timeInModules (now : Nat) (t : Int) (mid rid : String) :
    List Module → List Module × Option (ℚ × Bool)
  | [] => ([], none)
  | m :: ms =>
    if m.id = mid then
      let (m1, fired) := timeInModule now t rid m
      match fired with
      | some x => (m1 :: ms, some x)
      | none =>
        let (ms1, fired2) := timeInModules now t mid rid ms
        (m1 :: ms1, fired2)
    else
      let (ms1, fired2) := timeInModules now t mid rid ms
      (m :: ms1, fired2)

/-- Embedding of `roadmap["modules"][module_idx + 1]["resources"][0]["status"] =
"unlocked"` (`roadmaps.py` lines 622-625): `module_idx` is the first index
whose module id matches; the first resource of the following module is set
to `UNLOCKED` unconditionally, and an empty resource list raises an
`IndexError` (surfaced as HTTP 500 by the blanket handler). -/
def unlockNextModule (mid : String) (ms : List Module) : Except HttpError (List Module) :=
  match ms.findIdx? (fun m => m.id = mid) with
  | none => .ok ms
  | some i =>
    if i + 1 < ms.length then
      match ms[i+1]? with
      | some m1 =>
        match m1.resources with
        | [] => .error ⟨500, "list index out of range"⟩
        | r :: rs =>
          .ok (listModify (fun _ => { m1 with resources := { r with status := .unlocked } :: rs })
            (i + 1) ms)
      | none => .ok ms
    else .ok ms

/-- Embedding of `update_time_spent` (`roadmaps.py` lines 585-648).  Because
`updated = True` is only set in the auto-complete branch, any call that does
not auto-complete falls through to `raise HTTPException(404, "Resource not
found")`, which the blanket handler re-raises as HTTP 500; and on the
auto-complete path the only write would come from `recalculate_progress`,
whose `update_one` is dead code — so the route never persists anything and
the stored document is returned unchanged. -/
def update_time_spent (now : Nat) (db : Option Roadmap) (mid rid : String) (t : Int) :
    Except HttpError (Roadmap × TimeResponse) :=
  match db with
  | none => .error (wrap500 ⟨404, "Roadmap not found"⟩)
  | some r =>
    let (ms1, fired) := timeInModules now t mid rid r.modules
    match fired with
    | none => .error (wrap500 ⟨404, "Resource not found"⟩)
    | some (est, needUnlock) =>
      match (if needUnlock then unlockNextModule mid ms1 else .ok ms1) with
      | .error e => .error (wrap500 e)
      | .ok ms2 =>
        let _ := recalculate_progress { r with modules := ms2 }
        .ok (r,
          { message := "Time updated"
            auto_completed := true
            time_spent_seconds := t
            estimated_seconds := est * 3600
            completion_percentage :=
              if 0 < est then pyRound2 ((t : ℚ) / (est * 3600) * 100) else 0 })

/-! ## Rate resource (`rate_resource`, `roadmaps.py` lines 688-757). -/

/-- The fields of `RateResourceRequest` used by the route
(`backend/models/resource.py` lines 63-72). -/
structure RateResourceRequest where
  rating : ℚ
  comment : Option String
deriving DecidableEq, Repr

/-- Response body of `rate_resource` (`roadmaps.py` lines 749-755). -/
structure RateResponse where
  message : String
  resource_title : String
  your_rating : ℚ
  average_rating : ℚ
  total_ratings : Nat
deriving DecidableEq, Repr

/-- The rating update applied to the matched resource (`roadmaps.py`
lines 708-732): replace the user's first existing entry or append a new one,
then store `round(mean, 1)` and the entry count. -/
def applyRating (uid : String) (req : RateResourceRequest) (now : Nat)
    (r : LearningResource) : LearningResource :=
  let newEntry : RatingEntry := ⟨uid, req.rating, req.comment, now⟩
  let ratings1 :=
    match r.ratings.findIdx? (fun e => e.user_id = uid) with
    | some i => listModify (fun _ => newEntry) i r.ratings
    | none => r.ratings ++ [newEntry]
  let total := (ratings1.map (fun e => e.rating)).sum
  { r with
      ratings := ratings1
      rating := some (pyRound1 (total / ratings1.length))
      rating_count := ratings1.length }

/-- The resource loop of `rate_resource` within one module: first URL match
is rated (inner `break`). -/
def rateScan (uid : String) (req : RateResourceRequest) (now : Nat) (url : String) :
    List LearningResource → Option (List LearningResource × LearningResource)
  | [] => none
  | r :: rs =>
    if r.url = url then
      let r1 := applyRating uid req now r
      some (r1 :: rs, r1)
    else
      match rateScan uid req now url rs with
      | none => none
      | some (rs1, x) => some (r :: rs1, x)

/-- The module loop of `rate_resource` (`roadmaps.py` lines 703-735): outer
`break` once the resource was found. -/
def rateInModules (uid : String) (req : RateResourceRequest) (now : Nat) (url : String) :
    List Module → Option (List Module × LearningResource)
  | [] => none
  | m :: ms =>
    match rateScan uid req now url m.resources with
    | some (rs1, x) => some ({ m with resources := rs1 } :: ms, x)
    | none =>
      match rateInModules uid req now url ms with
      | none => none
      | some (ms1, x) => some (m :: ms1, x)

/-- Embedding of `rate_resource` (`roadmaps.py` lines 688-757): match a resource by URL
across all modules, update its rating aggregate, persist the module list.
Its only handler is the blanket `except Exception` (line 756), so the
internal 404s surface as HTTP 500. -/
def rate_resource (now : Nat) (db : Option Roadmap) (uid url : String)
    (req : RateResourceRequest) : Except HttpError (Roadmap × RateResponse) :=
  match db with
  | none => .error (wrap500 ⟨404, "Roadmap not found"⟩)
  | some r =>
    match rateInModules uid req now url r.modules with
    | none => .error (wrap500 ⟨404, "Resource not found in roadmap"⟩)
    | some (ms1, x) =>
      .ok ({ r with modules := ms1 },
        { message := "Resource rated successfully"
          resource_title := x.title
          your_rating := req.rating
          average_rating := x.rating.getD 0
          total_ratings := x.rating_count })

/-- Modelled from the spec: "Recompute the resource's mean rating … from the
full list" — the exact (unrounded) mean of a list of rating entries. -/
def ratingsMean (l : List RatingEntry) : ℚ :=
  (l.map (fun e => e.rating)).sum / l.length

/-! ## Concrete sample documents used by the evaluation theorems. -/

/-- A concrete resource with the given id, status, order and estimated
hours; all other fields fresh. -/
def sampleRes (rid : String) (st : ResourceStatus) (ord : Nat) (est : ℚ) :
    LearningResource :=
  { id := rid
    title := rid
    url := "https://e.com/" ++ rid
    description := ""
    resource_type := "video"
    estimated_hours := est
    status := st
    order := ord
    time_spent_seconds := 0
    opened_at := none
    completed_at := none
    skipped_at := none
    ratings := []
    rating := none
    rating_count := 0 }

/-- A concrete module with the given id and resources. -/
def sampleMod (mid : String) (rs : List LearningResource) : Module :=
  { id := mid
    title := mid
    description := ""
    skills_covered := []
    resources := rs
    estimated_total_hours := 2
    week_number := 1
    order := 0
    is_completed := false
    completion_summary := none
    summary_generated_at := none }

/-- One module, two resources: `r1` UNLOCKED at order 0, `r2` LOCKED at
order 1 (the §8 Scenario A shape). -/
def roadmapA : Roadmap :=
  { modules := [sampleMod "m1" [sampleRes "r1" .unlocked 0 1, sampleRes "r2" .locked 1 1]]
    progress_percentage := 0
    current_module_index := 0 }

/-- One module, one UNLOCKED resource: completing it completes the module. -/
def roadmapB : Roadmap :=
  { modules := [sampleMod "m1" [sampleRes "r1" .unlocked 0 1]]
    progress_percentage := 0
    current_module_index := 0 }

/-- One module: `r1` IN_PROGRESS at order 0 and `r2` already COMPLETED at
order 1. -/
def moduleC : Module :=
  sampleMod "m1"
    [sampleRes "r1" .inProgress 0 1,
     { sampleRes "r2" .completed 1 1 with completed_at := some 3 }]

/-- Roadmap around `moduleC`. -/
def roadmapC : Roadmap :=
  { modules := [moduleC]
    progress_percentage := 50
    current_module_index := 0 }

/-- One module, one resource carrying two ratings (users u1 → 1, u2 → 2). -/
def roadmapRated : Roadmap :=
  { modules := [sampleMod "m1"
      [{ sampleRes "r1" .unlocked 0 1 with
           ratings := [⟨"u1", 1, none, 0⟩, ⟨"u2", 2, none, 1⟩],
           rating := some (3/2), rating_count := 2 }]]
    progress_percentage := 0
    current_module_index := 0 }

/-- An oracle for the summary generator that always fails (the AI call
raises). -/
def failOracle : String → Except String String := fun _ => .error "AI call failed"

/-- An oracle for the summary generator that always returns a fixed text. -/
def okOracle : String → Except String String := fun _ => .ok "well done"

/-- Erase the fields written by the summary block, leaving only progression
state (statuses, unlocks, completion flags, aggregates). -/
def stripSummary (m : Module) : Module :=
  { m with completion_summary := none, summary_generated_at := none }

/-- Apply `stripSummary` over a whole roadmap. -/
def stripRoadmapSummaries (r : Roadmap) : Roadmap :=
  { r with modules := r.modules.map stripSummary }

/-- The ratings list of the first resource of the first module (projection
used to look at a concrete stored document). -/
def firstResourceRatings (r : Roadmap) : List RatingEntry :=
  match r.modules with
  | [] => []
  | m :: _ =>
    match m.resources with
    | [] => []
    | x :: _ => x.ratings

/-- The ratings stored after user u3 rates the `roadmapRated` resource
with 2: entries 1, 2, 2. -/
def c9ratings : List RatingEntry :=
  [⟨"u1", 1, none, 0⟩, ⟨"u2", 2, none, 1⟩, ⟨"u3", 2, none, 7⟩]

/-- Result of the first `open_resource` call on `roadmapA`/`r1`. -/
def c7pair1 : Roadmap × OpenResponse :=
  ((open_resource 5 (some roadmapA) "m1" "r1").toOption).getD (roadmapA, ⟨"", none, ""⟩)

/-- Result of a second `open_resource` call on the state left by the
first. -/
def c7pair2 : Roadmap × OpenResponse :=
  ((open_resource 9 (some c7pair1.1) "m1" "r1").toOption).getD (roadmapA, ⟨"", none, ""⟩)

/-- Two concrete AI-builder modules with one resource each. -/
def c8mds : List ModuleData :=
  [⟨"A", "", [], some 3, [⟨"a0", "https://e.com/a0", "", 2, "video"⟩]⟩,
   ⟨"B", "", [], none, [⟨"b0", "https://e.com/b0", "", 4, "course"⟩]⟩]

/-- A concrete generated module list: 12 weeks over `c8mds`. -/
def c8modules : List Module :=
  buildModules 12 c8mds (fun i => "m" ++ toString i) (fun i j => "r" ++ toString i ++ toString j)

/-- Second generated module of `c8modules` (used as a concrete witness). -/
def c8m1 : Module := (c8modules.drop 1).headD (sampleMod "x" [])

/-! ## Helper lemmas -/

theorem listModify_length (f : α → α) (i : Nat) (l : List α) :
    (listModify f i l).length = l.length := by
  induction l generalizing i with
  | nil => rfl
  | cons a as ih =>
    cases i with
    | zero => rfl
    | succ n => simpa [listModify] using ih n

theorem listModify_getElem?_ne (f : α → α) {i j : Nat} (l : List α) (h : i ≠ j) :
    (listModify f i l)[j]? = l[j]? := by
  induction l generalizing i j with
  | nil => rfl
  | cons a as ih =>
    cases i with
    | zero =>
      cases j with
      | zero => exact absurd rfl h
      | succ m => simp [listModify]
    | succ n =>
      cases j with
      | zero => simp [listModify]
      | succ m =>
        simp only [listModify, List.getElem?_cons_succ]
        exact ih (fun hnm => h (by simp [hnm]))

theorem listModify_getElem?_self (f : α → α) (i : Nat) (l : List α) :
    (listModify f i l)[i]? = (l[i]?).map f := by
  induction l generalizing i with
  | nil => rfl
  | cons a as ih =>
    cases i with
    | zero => simp [listModify]
    | succ n => simpa [listModify] using ih n

theorem ratFloor_eq_floor (q : ℚ) : Rat.floor q = ⌊q⌋ := by
  rw [Rat.floor_def', Rat.floor_def]

theorem pyInt_of_nonneg {q : ℚ} (h : 0 ≤ q) : pyInt q = ⌊q⌋ := by
  rw [pyInt, if_neg (not_lt.mpr h), ratFloor_eq_floor]

/-! ## Claim theorems -/

set_option maxRecDepth 40000

/-- Claim C1 — the code is wrong.  `recalculate_progress` executes
`return completed_module_ids` (roadmaps.py line 534) before the `update_one`
that would persist `progress_percentage`, and never writes that key into the
roadmap dict, so (first conjunct) after a successful `complete_resource` the
stored `progress_percentage` is still 0 while the spec invariant requires
50; and (second conjunct) an auto-completing `update-time` call persists
nothing at all: the stored document is returned unchanged. -/
theorem c1_progress_never_persisted :
    ((complete_resource 5 failOracle (some roadmapA) "m1" "r1").toOption.map
      (fun x => (x.1.progress_percentage, specProgressPercentage x.1)) = some (0, 50)) ∧
    ((update_time_spent 5 (some roadmapA) "m1" "r1" 3240).toOption.map
      (fun x => x.1) = some roadmapA) := by
  exact ⟨by with_unfolding_all decide, by with_unfolding_all decide⟩

/-- Claim C2 — the code is wrong.  In `update_time_spent`, `updated = True`
sits inside the auto-complete branch (roadmaps.py line 626), so a resolving
call whose time is below the 90% threshold falls through to
`raise HTTPException(404, "Resource not found")`, which the blanket handler
re-raises as HTTP 500 — instead of succeeding with `auto_completed = false`
and persisting the raw time as the claim states.  Here `roadmapA` resolves
("m1"/"r1", 1 estimated hour, so threshold 3240 s) and 100 s is stored on
nothing: the call errors. -/
theorem c2_plain_time_update_errors :
    update_time_spent 5 (some roadmapA) "m1" "r1" 100 =
      .error ⟨500, "404: Resource not found"⟩ := by with_unfolding_all decide

/-- Claim C4 — the code is wrong.  Of the five operations only
`complete_resource` re-raises its `HTTPException` (roadmaps.py lines
367-368); `skip_resource`, `open_resource`, `update_time_spent` and
`rate_resource` catch their own NotFound in the blanket
`except Exception` handler and surface HTTP 500 (for `open_resource` a
`NameError` on the undefined `user_id`, line 557, fires even before the
404). -/
theorem c4_notfound_becomes_500 :
    (skip_resource 5 okOracle none "m" "r" = .error ⟨500, "404: Roadmap not found"⟩) ∧
    (open_resource 5 none "m" "r" = .error ⟨500, "NameError: name user_id is not defined"⟩) ∧
    (update_time_spent 5 none "m" "r" 10 = .error ⟨500, "404: Roadmap not found"⟩) ∧
    (rate_resource 5 none "u" "x" ⟨5, none⟩ = .error ⟨500, "404: Roadmap not found"⟩) ∧
    (complete_resource 5 okOracle none "m" "r" = .error ⟨404, "Roadmap not found"⟩) := by
  exact ⟨rfl, rfl, rfl, rfl, rfl⟩

/-- Claim C3, counterexample.  Completing (and likewise skipping) the only
resource of `roadmapB` newly completes module m1; in the emitted event trace
of either route the summary attempt (index 0) strictly precedes the single
persist (index 1), refuting "the updated progression state is persisted
before module-summary generation is attempted" for both operations. -/
theorem c3_summary_attempted_before_persist :
    ((complete_resource 5 okOracle (some roadmapB) "m1" "r1").toOption.map
      (fun x => (x.2.2, x.2.2.findIdx isSummaryEvent, x.2.2.findIdx isPersistEvent)) =
      some ([.summaryCall "m1", .persistRoadmap], 0, 1)) ∧
    ((skip_resource 5 okOracle (some roadmapB) "m1" "r1").toOption.map
      (fun x => (x.2.2, x.2.2.findIdx isSummaryEvent, x.2.2.findIdx isPersistEvent)) =
      some ([.summaryCall "m1", .persistRoadmap], 0, 1)) := by
  exact ⟨by with_unfolding_all decide, by with_unfolding_all decide⟩

/-- Claim C5, counterexample.  In `roadmapC` the resource at order 1 is
already COMPLETED; completing the resource at order 0 must, per the claim,
leave it unchanged — but the unconditional `resources[next_idx]["status"] =
"unlocked"` (roadmaps.py line 323) downgrades it to UNLOCKED. -/
theorem c5_unlock_overwrites_completed :
    (complete_resource 7 okOracle (some roadmapC) "m1" "r1").toOption.map
      (fun x => x.1.modules.map (fun m => m.resources.map (fun r => r.status))) =
      some [[.completed, .unlocked]] := by with_unfolding_all decide

/-- Claim C9, counterexample.  After a third user rates 2 on a resource with
stored ratings 1 and 2, the stored average is `round(5/3, 1) = 1.7`
(roadmaps.py line 731), not the exact mean 5/3 of the stored individual
ratings. -/
theorem c9_average_is_rounded :
    ((rate_resource 7 (some roadmapRated) "u3" "https://e.com/r1" ⟨2, none⟩).toOption.map
      (fun x => (firstResourceRatings x.1, x.2.average_rating)) =
        some (c9ratings, 17/10)) ∧
    (17/10 : ℚ) ≠ ratingsMean c9ratings := by
  exact ⟨by with_unfolding_all decide, by with_unfolding_all decide⟩

/-- Claim C6, confirmed.  The auto-complete comparison of
`update_time_spent` is inclusive: for a resource that is not already
COMPLETED, a time equal to `0.9 * estimated_hours * 3600` passes the test
and one second less does not; and on the concrete boundary roadmap
(`roadmapA`, 1 estimated hour) the route reports `auto_completed = true` at
3240 s while 3239 s produces no auto-completion (the call errors without
completing anything, see C2). -/
theorem c6_threshold_inclusive (est : ℚ) (s : ResourceStatus) (t : Int)
    (hs : s ≠ ResourceStatus.completed)
    (ht : (t : ℚ) = est * 3600 * (9/10)) :
    autoCompleteCond est s t = true ∧
    autoCompleteCond est s (t - 1) = false ∧
    ((update_time_spent 5 (some roadmapA) "m1" "r1" 3240).toOption.map
      (fun x => x.2.auto_completed) = some true) ∧
    (update_time_spent 5 (some roadmapA) "m1" "r1" 3239).toOption = none := by
  refine ⟨?_, ?_, by with_unfolding_all decide, by with_unfolding_all decide⟩
  · unfold autoCompleteCond
    rw [decide_eq_true (le_of_eq ht.symm), decide_eq_true hs]
    rfl
  · have h2 : ¬ (est * 3600 * (9/10) : ℚ) ≤ ((t - 1 : Int) : ℚ) := by
      push_cast
      intro hc
      linarith [ht]
    unfold autoCompleteCond
    rw [decide_eq_false h2, Bool.false_and]

/-- Witness for C6 at estimated hours 1: the boundary is 3240 s. -/
theorem c6_threshold_inclusive_witness :
    autoCompleteCond 1 ResourceStatus.unlocked 3240 = true ∧
    autoCompleteCond 1 ResourceStatus.unlocked (3240 - 1) = false ∧
    ((update_time_spent 5 (some roadmapA) "m1" "r1" 3240).toOption.map
      (fun x => x.2.auto_completed) = some true) ∧
    (update_time_spent 5 (some roadmapA) "m1" "r1" 3239).toOption = none :=
  c6_threshold_inclusive 1 ResourceStatus.unlocked 3240 (by decide) (by norm_num)

/-- Claim C10, confirmed.  For a resource whose status is LOCKED, COMPLETED
or SKIPPED (anything but UNLOCKED / IN_PROGRESS), `open_resource` leaves the
status unchanged yet records `opened_at` when absent; and on the concrete
LOCKED resource `r2` of `roadmapA` the route succeeds, persists the modules
with the timestamp recorded and the status still LOCKED, and its response
`status` field reads `"in_progress"` regardless. -/
theorem c10_open_nonactive_resource (now : Nat) (r : LearningResource)
    (hs1 : r.status ≠ ResourceStatus.unlocked)
    (hs2 : r.status ≠ ResourceStatus.inProgress) :
    ((openUpdate now r).status = r.status ∧
      (openUpdate now r).opened_at = some (r.opened_at.getD now)) ∧
    ((open_resource 5 (some roadmapA) "m1" "r2").toOption.map
      (fun x => (x.2.status,
        x.1.modules.map (fun m => m.resources.map (fun q => (q.status, q.opened_at))))) =
      some ("in_progress", [[(.unlocked, none), (.locked, some 5)]])) := by
  refine ⟨?_, by with_unfolding_all decide⟩
  have hcond : (r.status = ResourceStatus.unlocked || r.status = ResourceStatus.inProgress) = false := by
    simp [hs1, hs2]
  rw [openUpdate, hcond]
  simp only [Bool.false_eq_true, if_false]
  cases ho : r.opened_at with
  | none => simp [ho]
  | some t => simp [ho]

/-- Witness for C10 on a concrete LOCKED resource. -/
theorem c10_open_nonactive_resource_witness :
    ((openUpdate 3 (sampleRes "r2" .locked 1 1)).status = (sampleRes "r2" .locked 1 1).status ∧
      (openUpdate 3 (sampleRes "r2" .locked 1 1)).opened_at =
        some ((sampleRes "r2" .locked 1 1).opened_at.getD 3)) ∧
    ((open_resource 5 (some roadmapA) "m1" "r2").toOption.map
      (fun x => (x.2.status,
        x.1.modules.map (fun m => m.resources.map (fun q => (q.status, q.opened_at))))) =
      some ("in_progress", [[(.unlocked, none), (.locked, some 5)]])) :=
  c10_open_nonactive_resource 3 (sampleRes "r2" .locked 1 1) (by decide) (by decide)

theorem getLast?_append_singleton (l : List α) (a : α) : (l ++ [a]).getLast? = some a :=
  List.getLast?_concat l

theorem stripSummary_update (m : Module) (a : Option String) (b : Option Nat) :
    stripSummary { m with completion_summary := a, summary_generated_at := b } =
      stripSummary m := rfl

theorem stripRoadmapSummaries_setModules (r : Roadmap) (ms : List Module) :
    stripRoadmapSummaries { r with modules := ms } =
      { r with modules := ms.map stripSummary } := rfl

theorem applySummary_strip (o1 o2 : String → Except String String) (now : Nat) (cid : String) :
    ∀ (ms ms' : List Module), ms.map stripSummary = ms'.map stripSummary →
      ((applySummary o1 now cid ms).1.map stripSummary =
        (applySummary o2 now cid ms').1.map stripSummary) ∧
      (applySummary o1 now cid ms).2.2 = (applySummary o2 now cid ms').2.2 := by
  intro ms
  induction ms with
  | nil =>
    intro ms' hm
    cases ms' with
    | nil => exact ⟨rfl, rfl⟩
    | cons _ _ => simp at hm
  | cons m rest ih =>
    intro ms' hm
    cases ms' with
    | nil => simp at hm
    | cons m' rest' =>
      simp only [List.map_cons, List.cons.injEq] at hm
      obtain ⟨hhead, htail⟩ := hm
      have hid : m.id = m'.id := by
        have h := congrArg Module.id hhead
        simpa [stripSummary] using h
      obtain ⟨ih1, ih2⟩ := ih rest' htail
      rcases e1 : applySummary o1 now cid rest with ⟨r1, i1, v1⟩
      rcases e2 : applySummary o2 now cid rest' with ⟨r2, i2, v2⟩
      simp only [e1, e2] at ih1 ih2
      by_cases hc : m.id = cid
      · have hc' : m'.id = cid := hid ▸ hc
        simp only [applySummary, if_pos hc, if_pos hc', e1, e2]
        refine ⟨?_, by simpa using ih2⟩
        simp only [List.map_cons, stripSummary_update]
        rw [hhead, ih1]
      · have hc' : ¬ m'.id = cid := fun hx => hc (hid ▸ hx)
        simp only [applySummary, if_neg hc, if_neg hc', e1, e2]
        refine ⟨?_, by simpa using ih2⟩
        simp only [List.map_cons]
        rw [hhead, ih1]

theorem summariesFor_strip (o1 o2 : String → Except String String) (now : Nat) :
    ∀ (ids : List String) (ms ms' : List Module),
      ms.map stripSummary = ms'.map stripSummary →
      ((summariesFor o1 now ids ms).1.map stripSummary =
        (summariesFor o2 now ids ms').1.map stripSummary) ∧
      (summariesFor o1 now ids ms).2.2 = (summariesFor o2 now ids ms').2.2 := by
  intro ids
  induction ids with
  | nil => intro ms ms' hm; exact ⟨hm, rfl⟩
  | cons cid ids ih =>
    intro ms ms' hm
    obtain ⟨a1, a2⟩ := applySummary_strip o1 o2 now cid ms ms' hm
    rcases e1 : applySummary o1 now cid ms with ⟨r1, i1, v1⟩
    rcases e2 : applySummary o2 now cid ms' with ⟨r2, i2, v2⟩
    simp only [e1, e2] at a1 a2
    obtain ⟨b1, b2⟩ := ih r1 r2 a1
    rcases f1 : summariesFor o1 now ids r1 with ⟨s1, j1, w1⟩
    rcases f2 : summariesFor o2 now ids r2 with ⟨s2, j2, w2⟩
    simp only [f1, f2] at b1 b2
    simp only [summariesFor, e1, e2, f1, f2]
    exact ⟨b1, by rw [a2, b2]⟩

theorem finishResource_strip (f : LearningResource → LearningResource) (msg : String)
    (now : Nat) (o1 o2 : String → Except String String) (db : Option Roadmap)
    (mid rid : String) :
    ((finishResource f msg o1 now db mid rid).toOption.map
        (fun x => (stripRoadmapSummaries x.1, x.2.2)) =
      (finishResource f msg o2 now db mid rid).toOption.map
        (fun x => (stripRoadmapSummaries x.1, x.2.2))) ∧
    ((finishResource f msg o1 now db mid rid).toOption.map (fun x => x.2.2.getLast?) =
      (finishResource f msg o1 now db mid rid).toOption.map
        (fun _ => some DbEvent.persistRoadmap)) := by
  cases db with
  | none => exact ⟨rfl, rfl⟩
  | some r =>
    rcases hmark : markInModules f mid rid r.modules with ⟨ms1, updated⟩
    rcases hrec : recalculate_progress { r with modules := ms1 } with ⟨r2, ids⟩
    cases updated with
    | false =>
      simp only [finishResource, hmark]
      exact ⟨rfl, rfl⟩
    | true =>
      obtain ⟨s1, s2⟩ := summariesFor_strip o1 o2 now ids r2.modules r2.modules rfl
      rcases e1 : summariesFor o1 now ids r2.modules with ⟨ma, ia, va⟩
      rcases e2 : summariesFor o2 now ids r2.modules with ⟨mb, ib, vb⟩
      simp only [e1, e2] at s1 s2
      simp only [finishResource, hmark, hrec, e1, e2, if_true,
        Except.toOption, Option.map_some', Option.some.injEq, Prod.mk.injEq]
      refine ⟨⟨?_, by rw [s2]⟩, ?_⟩
      · rw [stripRoadmapSummaries_setModules, stripRoadmapSummaries_setModules, s1]
      · exact getLast?_append_singleton va _

theorem skip_resource_toOption (now : Nat) (o : String → Except String String)
    (db : Option Roadmap) (mid rid : String) :
    (skip_resource now o db mid rid).toOption =
      (finishResource (skipUpd now) "Resource skipped" o now db mid rid).toOption := by
  unfold skip_resource
  cases hf : finishResource (skipUpd now) "Resource skipped" o now db mid rid with
  | error e => rfl
  | ok x => rfl

/-- Claim C3, amended and proved.  In `complete_resource` and in
`skip_resource` the progression state is persisted only after module-summary
generation; but `generate_module_summary` catches every failure of the AI
call and returns a fallback string, so for every outcome of that downstream
call either operation behaves identically up to the stored summary text:
success/failure of the route, the emitted event trace, and the persisted
progression state (statuses, unlocks, completion flags, aggregates —
everything except the summary fields) do not depend on the oracle, and the
single persist is the last event.  A summary failure therefore still cannot
lose the progression state of either route, even though the
persist-before-summary ordering asserted by the claim does not hold. -/
theorem c3_amended_persist_independent_of_summary (now : Nat)
    (o1 o2 : String → Except String String) (db : Option Roadmap) (mid rid : String) :
    ((complete_resource now o1 db mid rid).toOption.map
        (fun x => (stripRoadmapSummaries x.1, x.2.2)) =
      (complete_resource now o2 db mid rid).toOption.map
        (fun x => (stripRoadmapSummaries x.1, x.2.2))) ∧
    ((complete_resource now o1 db mid rid).toOption.map (fun x => x.2.2.getLast?) =
      (complete_resource now o1 db mid rid).toOption.map
        (fun _ => some DbEvent.persistRoadmap)) ∧
    ((skip_resource now o1 db mid rid).toOption.map
        (fun x => (stripRoadmapSummaries x.1, x.2.2)) =
      (skip_resource now o2 db mid rid).toOption.map
        (fun x => (stripRoadmapSummaries x.1, x.2.2))) ∧
    ((skip_resource now o1 db mid rid).toOption.map (fun x => x.2.2.getLast?) =
      (skip_resource now o1 db mid rid).toOption.map
        (fun _ => some DbEvent.persistRoadmap)) := by
  obtain ⟨hc1, hc2⟩ :=
    finishResource_strip (completeUpd now) "Resource marked as completed" now o1 o2 db mid rid
  obtain ⟨hs1, hs2⟩ :=
    finishResource_strip (skipUpd now) "Resource skipped" now o1 o2 db mid rid
  refine ⟨hc1, hc2, ?_, ?_⟩
  · rw [skip_resource_toOption now o1, skip_resource_toOption now o2]
    exact hs1
  · rw [skip_resource_toOption now o1]
    exact hs2

theorem markScan_length (f : LearningResource → LearningResource) (rid : String) :
    ∀ (rs rs1 : List LearningResource) (k : Nat),
      markScan f rid rs = some (rs1, k) → rs1.length = rs.length := by
  intro rs
  induction rs with
  | nil => intro rs1 k h; simp [markScan] at h
  | cons r rest ih =>
    intro rs1 k h
    rw [markScan] at h
    by_cases hid : r.id = rid
    · rw [if_pos hid] at h
      cases h
      simp
    · rw [if_neg hid] at h
      cases hm : markScan f rid rest with
      | none => rw [hm] at h; cases h
      | some p =>
        obtain ⟨rs2, k2⟩ := p
        rw [hm] at h
        cases h
        simp [ih rs2 k hm]

theorem markScan_getElem? (f : LearningResource → LearningResource) (rid : String) :
    ∀ (rs rs1 : List LearningResource) (k : Nat),
      markScan f rid rs = some (rs1, k) →
      ∀ j : Nat, rs1[j]? = rs[j]? ∨
        ∃ r, rs[j]? = some r ∧ r.id = rid ∧ r.order = k ∧ rs1[j]? = some (f r) := by
  intro rs
  induction rs with
  | nil => intro rs1 k h; simp [markScan] at h
  | cons r rest ih =>
    intro rs1 k h j
    rw [markScan] at h
    by_cases hid : r.id = rid
    · rw [if_pos hid] at h
      cases h
      cases j with
      | zero => right; exact ⟨r, by simp, hid, rfl, by simp⟩
      | succ n => left; simp
    · rw [if_neg hid] at h
      cases hm : markScan f rid rest with
      | none => rw [hm] at h; cases h
      | some p =>
        obtain ⟨rs2, k2⟩ := p
        rw [hm] at h
        cases h
        cases j with
        | zero => left; simp
        | succ n =>
          rcases ih rs2 k hm n with h1 | ⟨q, hq1, hq2, hq3, hq4⟩
          · left; simpa using h1
          · right; exact ⟨q, by simpa using hq1, hq2, hq3, by simpa using hq4⟩

theorem ordersMatch_of_enum_all {l : List LearningResource}
    (h : (l.enum.all (fun p => p.2.order = p.1)) = true) :
    ∀ (j : Nat) (r : LearningResource), l[j]? = some r → r.order = j := by
  intro j r hj
  have hmem : (j, r) ∈ l.enum := by
    rw [List.mk_mem_enum_iff_getElem?]
    exact hj
  have := List.all_eq_true.mp h _ hmem
  simpa using this

/-- Claim C5, amended and proved.  In `complete_resource` (and identically
`skip_resource`, via the shared `markInModule` with updater `skipUpd`), for
a module whose resource orders match their list positions, completing or
skipping the resource at order `k` sets the status of the resource at order
`k + 1` — when it exists — to UNLOCKED *unconditionally*, overwriting any
prior state (LOCKED becomes UNLOCKED as the claim says, but UNLOCKED /
IN_PROGRESS / COMPLETED / SKIPPED are overwritten too, see
`c5_unlock_overwrites_completed`); resources at orders greater than `k + 1`
are not altered. -/
theorem c5_amended_unlock_unconditional
    (f : LearningResource → LearningResource) (rid : String) (m : Module)
    (rs1 : List LearningResource) (k : Nat)
    (horder : ∀ (j : Nat) (r : LearningResource), m.resources[j]? = some r → r.order = j)
    (h : markScan f rid m.resources = some (rs1, k)) :
    (markInModule f rid m).2 = true ∧
    (k + 1 < m.resources.length →
      (((markInModule f rid m).1.resources[k + 1]?).map (fun r => r.status)) =
        some ResourceStatus.unlocked) ∧
    (∀ j, k + 1 < j → (markInModule f rid m).1.resources[j]? = m.resources[j]?) := by
  have hlen := markScan_length f rid m.resources rs1 k h
  have hget := markScan_getElem? f rid m.resources rs1 k h
  have huntouched : ∀ j, j ≠ k → rs1[j]? = m.resources[j]? := by
    intro j hjk
    rcases hget j with h1 | ⟨q, hq1, _, hq3, _⟩
    · exact h1
    · exact absurd (hq3.symm.trans (horder j q hq1)) (Ne.symm hjk)
  refine ⟨?_, ?_, ?_⟩
  · simp only [markInModule, h]
  · intro hk
    simp only [markInModule, h]
    rw [unlockNext, if_pos (by rw [hlen]; exact hk)]
    rw [listModify_getElem?_self]
    rw [huntouched (k + 1) (by omega)]
    rw [List.getElem?_eq_getElem hk]
    rfl
  · intro j hj
    simp only [markInModule, h]
    rw [unlockNext]
    by_cases hcase : k + 1 < rs1.length
    · rw [if_pos hcase, listModify_getElem?_ne _ _ (Nat.ne_of_lt hj)]
      exact huntouched j (by omega)
    · rw [if_neg hcase]
      exact huntouched j (by omega)

/-- Witness for C5's amended statement: completing the order-0 resource of
`moduleC` turns its already-COMPLETED order-1 neighbour into UNLOCKED and
touches nothing beyond it. -/
theorem c5_amended_unlock_unconditional_witness :
    (markInModule (completeUpd 7) "r1" moduleC).2 = true ∧
    (0 + 1 < moduleC.resources.length →
      (((markInModule (completeUpd 7) "r1" moduleC).1.resources[0 + 1]?).map
        (fun r => r.status)) = some ResourceStatus.unlocked) ∧
    (∀ j, 0 + 1 < j →
      (markInModule (completeUpd 7) "r1" moduleC).1.resources[j]? =
        moduleC.resources[j]?) :=
  c5_amended_unlock_unconditional (completeUpd 7) "r1" moduleC
    [completeUpd 7 (sampleRes "r1" .inProgress 0 1),
     { sampleRes "r2" .completed 1 1 with completed_at := some 3 }] 0
    (ordersMatch_of_enum_all (by with_unfolding_all decide))
    (by with_unfolding_all decide)

theorem openUpdate_id (now : Nat) (r : LearningResource) :
    (openUpdate now r).id = r.id := by
  obtain ⟨i, ti, u, de, rt, e, st, o, ts, oa, ca, sa, ra, rg, rc⟩ := r
  cases st <;> cases oa <;> rfl

theorem openUpdate_idem (n1 n2 : Nat) (r : LearningResource) :
    openUpdate n2 (openUpdate n1 r) = openUpdate n1 r := by
  obtain ⟨i, ti, u, de, rt, e, st, o, ts, oa, ca, sa, ra, rg, rc⟩ := r
  cases st <;> cases oa <;> rfl

theorem openUpdate_opened_at (now : Nat) (r : LearningResource) :
    (openUpdate now r).opened_at = some (r.opened_at.getD now) := by
  obtain ⟨i, ti, u, de, rt, e, st, o, ts, oa, ca, sa, ra, rg, rc⟩ := r
  cases st <;> cases oa <;> rfl

theorem openScan_idem (n1 n2 : Nat) (rid : String) :
    ∀ (rs : List LearningResource) (a1 a2 : Option Nat),
      (openScan n2 rid a2 (openScan n1 rid a1 rs).1).1 = (openScan n1 rid a1 rs).1 := by
  intro rs
  induction rs with
  | nil => intro a1 a2; rfl
  | cons r rest ih =>
    intro a1 a2
    by_cases hid : r.id = rid
    · simp only [openScan, if_pos hid]
      have hid2 : (openUpdate n1 r).id = rid := by rw [openUpdate_id]; exact hid
      simp only [openScan, if_pos hid2, openUpdate_idem]
    · rcases e1 : openScan n1 rid a1 rest with ⟨rs1, f1, b1⟩
      simp only [openScan, if_neg hid, e1]
      rcases e2 : openScan n2 rid a2 rs1 with ⟨rs2, f2, b2⟩
      simp only [e2]
      have := ih a1 a2
      rw [e1] at this
      simp only at this
      rw [e2] at this
      simpa using this

theorem openModules_idem (n1 n2 : Nat) (mid rid : String) :
    ∀ (ms : List Module) (a1 a2 : Option Nat),
      (openModules n2 mid rid a2 (openModules n1 mid rid a1 ms).1).1 =
        (openModules n1 mid rid a1 ms).1 := by
  intro ms
  induction ms with
  | nil => intro a1 a2; rfl
  | cons m rest ih =>
    intro a1 a2
    by_cases hid : m.id = mid
    · rcases es : openScan n1 rid a1 m.resources with ⟨rs1, fs, bs⟩
      rcases er : openModules n1 mid rid bs rest with ⟨ms1, fr, br⟩
      have hfirst : (openModules n1 mid rid a1 (m :: rest)).1 =
          { m with resources := rs1 } :: ms1 := by
        simp only [openModules, if_pos hid, es, er]
      rw [hfirst]
      rcases es2 : openScan n2 rid a2 rs1 with ⟨rs2, fs2, bs2⟩
      have hscan := openScan_idem n1 n2 rid m.resources a1 a2
      rw [es] at hscan
      simp only at hscan
      rw [es2] at hscan
      simp only at hscan
      rcases er2 : openModules n2 mid rid bs2 ms1 with ⟨ms2, fr2, br2⟩
      have hmods := ih bs bs2
      rw [er] at hmods
      simp only at hmods
      rw [er2] at hmods
      simp only at hmods
      simp only [openModules, if_pos hid, es2, er2]
      rw [hscan, hmods]
    · rcases er : openModules n1 mid rid a1 rest with ⟨ms1, fr, br⟩
      have hfirst : (openModules n1 mid rid a1 (m :: rest)).1 = m :: ms1 := by
        simp only [openModules, if_neg hid, er]
      rw [hfirst]
      rcases er2 : openModules n2 mid rid a2 ms1 with ⟨ms2, fr2, br2⟩
      have hmods := ih a1 a2
      rw [er] at hmods
      simp only at hmods
      rw [er2] at hmods
      simp only at hmods
      simp only [openModules, if_neg hid, er2]
      rw [hmods]

/-- Claim C7, amended and proved.  Open-resource is idempotent on the
*stored* state: when two consecutive `open_resource` calls on the same ids
both succeed, the second leaves the stored document exactly as the first
left it (in particular the stored `opened_at` is untouched), and both
responses carry the same `status` field (the literal `"in_progress"`); the
per-resource update records an opened timestamp exactly when none exists.
The two calls do *not*, however, report the same `opened_at` value: the
call that records the timestamp reports `null` and only a later call
reports the stored timestamp (see `c7_first_open_reports_null`). -/
theorem c7_amended_stored_state_idempotent (n1 n2 : Nat) (db db1 db2 : Roadmap)
    (mid rid : String) (r1 r2 : OpenResponse)
    (h1 : open_resource n1 (some db) mid rid = .ok (db1, r1))
    (h2 : open_resource n2 (some db1) mid rid = .ok (db2, r2)) :
    db2 = db1 ∧ r1.status = "in_progress" ∧ r2.status = "in_progress" ∧
    (∀ (n : Nat) (r : LearningResource),
      (openUpdate n r).opened_at = some (r.opened_at.getD n)) := by
  simp only [open_resource] at h1
  rcases e1 : openModules n1 mid rid none db.modules with ⟨ms1, f1, acc1⟩
  rw [e1] at h1
  simp only at h1
  cases f1 with
  | false => simp at h1
  | true =>
    simp only [if_true] at h1
    injection h1 with hp
    injection hp with ha hb
    subst ha
    subst hb
    simp only [open_resource] at h2
    rcases e2 : openModules n2 mid rid none ms1 with ⟨ms2, f2, acc2⟩
    simp only [e2] at h2
    cases f2 with
    | false => simp at h2
    | true =>
      simp only [if_true] at h2
      injection h2 with hp2
      injection hp2 with ha2 hb2
      subst ha2
      subst hb2
      have hidem := openModules_idem n1 n2 mid rid db.modules none none
      rw [e1] at hidem
      simp only at hidem
      rw [e2] at hidem
      simp only at hidem
      refine ⟨?_, rfl, rfl, openUpdate_opened_at⟩
      rw [hidem]

/-- Witness for C7's amended statement: two concrete consecutive opens of
`r1` in `roadmapA`. -/
theorem c7_amended_stored_state_idempotent_witness :
    c7pair2.1 = c7pair1.1 ∧ c7pair1.2.status = "in_progress" ∧
    c7pair2.2.status = "in_progress" ∧
    (∀ (n : Nat) (r : LearningResource),
      (openUpdate n r).opened_at = some (r.opened_at.getD n)) :=
  c7_amended_stored_state_idempotent 5 9 roadmapA c7pair1.1 c7pair2.1 "m1" "r1"
    c7pair1.2 c7pair2.2 (by with_unfolding_all decide) (by with_unfolding_all decide)

/-- Claim C7, counterexample.  The first successful open of a fresh
resource reports `opened_at = null` (the `opened_time` variable is only
assigned when a timestamp already existed), while the second open reports
the stored timestamp: the two calls do not report the same `opened_at`. -/
theorem c7_first_open_reports_null :
    (open_resource 5 (some roadmapA) "m1" "r1").toOption.map
      (fun x => (x.2.opened_at,
        (open_resource 9 (some x.1) "m1" "r1").toOption.map (fun y => y.2.opened_at))) =
      some (none, some (some 5)) := by with_unfolding_all decide

theorem weeksPerModule_nonneg {W : ℚ} (hW : 0 ≤ W) (n : Nat) :
    0 ≤ weeksPerModule W n := by
  rw [weeksPerModule]
  split
  · exact div_nonneg hW (Nat.cast_nonneg n)
  · norm_num

/-- Claim C8, confirmed.  Every generated module `i` carries week number
`⌊i * (total_weeks / module_count)⌋ + 1`, and a resource of module `i` at
position `j` is created UNLOCKED exactly when the module is a week start and
`j = 0`, LOCKED otherwise, always with `time_spent_seconds = 0`. -/
theorem c8_week_assignment_and_lock_state (total_weeks : ℚ) (hW : 0 ≤ total_weeks)
    (mds : List ModuleData) (midG : Nat → String) (ridG : Nat → Nat → String)
    (i : Nat) (m : Module)
    (hm : (buildModules total_weeks mds midG ridG)[i]? = some m) :
    m.week_number = ⌊(i : ℚ) * weeksPerModule total_weeks mds.length⌋ + 1 ∧
    (∀ (j : Nat) (r : LearningResource), m.resources[j]? = some r →
      r.status = (if isWeekStart (weeksPerModule total_weeks mds.length) i ∧ j = 0
        then ResourceStatus.unlocked else ResourceStatus.locked) ∧
      r.time_spent_seconds = 0) := by
  simp only [buildModules] at hm
  rw [List.getElem?_map, List.getElem?_enum] at hm
  cases hmd : mds[i]? with
  | none => rw [hmd] at hm; cases hm
  | some md =>
    rw [hmd] at hm
    simp only [Option.map_some'] at hm
    injection hm with hm
    subst hm
    constructor
    · show moduleWeek (weeksPerModule total_weeks mds.length) i = _
      rw [moduleWeek,
        pyInt_of_nonneg (mul_nonneg (Nat.cast_nonneg i) (weeksPerModule_nonneg hW _))]
    · intro j r hjr
      simp only [mkGenModule] at hjr
      rw [List.getElem?_map, List.getElem?_enum] at hjr
      cases hrd : md.resources[j]? with
      | none => rw [hrd] at hjr; cases hjr
      | some rd =>
        rw [hrd] at hjr
        simp only [Option.map_some'] at hjr
        injection hjr with hjr
        subst hjr
        refine ⟨?_, rfl⟩
        by_cases hws : isWeekStart (weeksPerModule total_weeks mds.length) i = true
        · by_cases hj : j = 0 <;> simp [mkGenResource, hws, hj]
        · have hws' : isWeekStart (weeksPerModule total_weeks mds.length) i = false :=
            Bool.eq_false_iff.mpr hws
          simp [mkGenResource, hws']

/-- Witness for C8 on a concrete two-module builder output (12 weeks over
2 modules; module 1 starts week 7). -/
theorem c8_week_assignment_and_lock_state_witness :
    c8m1.week_number = ⌊(1 : ℚ) * weeksPerModule 12 c8mds.length⌋ + 1 ∧
    (∀ (j : Nat) (r : LearningResource), c8m1.resources[j]? = some r →
      r.status = (if isWeekStart (weeksPerModule 12 c8mds.length) 1 ∧ j = 0
        then ResourceStatus.unlocked else ResourceStatus.locked) ∧
      r.time_spent_seconds = 0) :=
  c8_week_assignment_and_lock_state 12 (by norm_num) c8mds
    (fun i => "m" ++ toString i) (fun i j => "r" ++ toString i ++ toString j) 1 c8m1
    (by with_unfolding_all decide)

/-- Claim C9, amended and proved.  On a rate call, the matched resource's
rating list is updated by replacing the same user's first existing entry
(count unchanged) or appending a new one; afterwards `rating_count` equals
the number of stored entries and the stored average equals the mean of the
stored individual ratings rounded to one decimal place (Python `round`,
half to even) — not the exact mean, see `c9_average_is_rounded`.  In
particular the same user rating 3 then 5 through the route leaves the count
at 1 and makes the average exactly 5. -/
theorem c9_amended_rating_aggregate (uid : String) (req : RateResourceRequest)
    (now : Nat) (r : LearningResource) :
    ((applyRating uid req now r).rating_count = (applyRating uid req now r).ratings.length) ∧
    ((applyRating uid req now r).rating =
      some (pyRound1 (ratingsMean (applyRating uid req now r).ratings))) ∧
    (match r.ratings.findIdx? (fun e => e.user_id = uid) with
     | some _ => (applyRating uid req now r).ratings.length = r.ratings.length
     | none => (applyRating uid req now r).ratings =
         r.ratings ++ [⟨uid, req.rating, req.comment, now⟩]) ∧
    ((rate_resource 1 (some roadmapB) "u" "https://e.com/r1" ⟨3, none⟩).toOption.bind
      (fun x => (rate_resource 2 (some x.1) "u" "https://e.com/r1" ⟨5, none⟩).toOption.map
        (fun y => (y.2.average_rating, y.2.total_ratings)))) = some (5, 1) := by
  refine ⟨rfl, rfl, ?_, by with_unfolding_all decide⟩
  cases hf : r.ratings.findIdx? (fun e => e.user_id = uid) with
  | some idx => simp [applyRating, hf, listModify_length]
  | none => simp [applyRating, hf]

end PathForge
